import Mathlib

/-!
Verification of the SANSCOG MRI pipeline (`src/SANSCOG/data.py`, class
`DICOMCrawler`) against its natural-language specification.

The filesystem is modelled as a tree of named entries.  A file carries the
MIME type that the `magic` collaborator reports for it and, as the model of
the `pydicom.dcmread` collaborator, an optional decoded dataset: `none` when
`dcmread` would fail to decode the file, `some elems` when it decodes to the
ordered name/value element list `elems`.  Directories report the MIME type
`inode/directory`, which is what libmagic returns for a directory path.

Python `glob` semantics are embedded as follows: `glob.glob(f"{p}/**")`
without `recursive=True` treats `**` like `*` and lists the direct children
of `p` whose names do not start with a dot; `glob.glob(f"{p}/**",
recursive=True)` yields `p + "/"` (the pattern with `**` matching the empty
string) followed by every descendant whose path contains no hidden
component.  `sorted` is Python's lexicographic string sort, embedded as
insertion sort over the code-point order on the characters of the path.
-/

set_option maxRecDepth 8192

/-- Lexicographic (code-point) comparison of character lists: Python `<=` on
strings. -/
def charsLe : List Char → List Char → Bool
  | [], _ => true
  | _ :: _, [] => false
  | a :: l, b :: m => if a < b then true else if b < a then false else charsLe l m

/-- Python string comparison `a <= b`. -/
def strLe (a b : String) : Bool := charsLe a.data b.data

/-- Whether the first character list is an initial segment of the second. -/
def charsIsPre : List Char → List Char → Bool
  | [], _ => true
  | _ :: _, [] => false
  | a :: l, b :: m => a == b && charsIsPre l m

/-- Whether the first character list occurs contiguously inside the second. -/
def charsIsInfix : List Char → List Char → Bool
  | nd, [] => charsIsPre nd []
  | nd, b :: m => charsIsPre nd (b :: m) || charsIsInfix nd m

/-- Python substring containment `tag in hay`. -/
def strContains (hay tag : String) : Bool := charsIsInfix tag.data hay.data

/-- Filesystem entry: a file with its libmagic MIME type and its optional
decoded DICOM dataset (the `dcmread` collaborator model), or a directory
with its named children. -/
inductive FSTree where
  | file (mime : String) (dicom : Option (List (String × String)))
  | dir (children : List (String × FSTree))

/-- Direct children of an entry (empty for a plain file). -/
def FSTree.children : FSTree → List (String × FSTree)
  | .file _ _ => []
  | .dir cs => cs

/-- Model of `os.path.isdir`. -/
def FSTree.isDir : FSTree → Bool
  | .file _ _ => false
  | .dir _ => true

/-- MIME type reported by `magic.from_file(..., mime=True)`: the stored type
for a file, `inode/directory` for a directory. -/
def mimeOf : FSTree → String
  | .file m _ => m
  | .dir _ => "inode/directory"

/-- Python `glob` hides entries whose name begins with a dot. -/
def hiddenName (n : String) : Bool :=
  match n.data with
  | [] => false
  | c :: _ => c == '.'

/-- Non-recursive glob `glob.glob(f"{p}/**")`: the direct children of `p`
whose names are not hidden, paired with their full paths. -/
def globStarPairs (p : String) (t : FSTree) : List (String × FSTree) :=
  (t.children.filter (fun c => !hiddenName c.1)).map (fun c => (p ++ "/" ++ c.1, c.2))

/-- Sorting relation on (path, entry) pairs: compare the full path strings. -/
def pairPathLe (a b : String × FSTree) : Prop := strLe a.1 b.1 = true

instance : DecidableRel pairPathLe :=
  fun a b => inferInstanceAs (Decidable (strLe a.1 b.1 = true))

/-- Sorting relation on plain path strings. -/
def pathLeP (a b : String) : Prop := strLe a b = true

instance : DecidableRel pathLeP :=
  fun a b => inferInstanceAs (Decidable (strLe a b = true))

/-- Python `sorted` over glob results (full path strings are all distinct on
a real filesystem, so any sort realises Python's order). -/
def sortPairs (l : List (String × FSTree)) : List (String × FSTree) :=
  List.insertionSort pairPathLe l

/-- Python `sorted` over plain path strings. -/
def sortStrings (l : List String) : List String :=
  List.insertionSort pathLeP l

mutual

/-- Proper descendants of `t` reachable by the recursive pattern `p/**`:
every entry whose path below `p` has no hidden component, in tree order
(the caller sorts). -/
def descend (p : String) : FSTree → List (String × FSTree)
  | .file _ _ => []
  | .dir cs => descendList p cs

/-- Descendants contributed by a list of named children. -/
def descendList (p : String) : List (String × FSTree) → List (String × FSTree)
  | [] => []
  | c :: rest =>
    (if hiddenName c.1 then []
     else (p ++ "/" ++ c.1, c.2) :: descend (p ++ "/" ++ c.1) c.2) ++ descendList p rest

end

/-- Recursive glob `glob.glob(f"{p}/**", recursive=True)`: the directory
itself (as `p + "/"`, from `**` matching the empty string) followed by all
non-hidden descendants. -/
def globRecPairs (p : String) (t : FSTree) : List (String × FSTree) :=
  (p ++ "/", t) :: descend p t

/-- Errors the crawl can raise, named after the Python exceptions
`DICOMCrawler` actually produces.  `fileNotFound`, `invalidJson` and
`unexpectedError` are the three `ValueError`s of `_read_json` (the spec's
`ConfigNotFound`, `ConfigMalformed`, `ConfigUnreadable`); `attributeError`
is the `AttributeError` from calling `.items()` on a non-mapping;
`indexErrorEmptyDir` is the `IndexError` from `sorted(glob.glob(...))[0]` on
an empty list; `indexErrorMissingField` is the `IndexError` from
`.values[0]` on an empty field selection (its message does not name the
field); `isADirectoryError` and `decodeFailed` are raised by `dcmread`. -/
inductive CrawlError where
  | fileNotFound (path : String)
  | invalidJson (path : String)
  | unexpectedError (msg : String)
  | attributeError
  | indexErrorEmptyDir
  | indexErrorMissingField
  | isADirectoryError (path : String)
  | decodeFailed (path : String)
deriving DecidableEq

/-- Loop body of `_check_all_dcm`: probe each globbed entry with libmagic and
return `False` on the first entry whose MIME type is not the DICOM one. -/
def checkLoop : List (String × FSTree) → Bool
  | [] => true
  | e :: rest => if mimeOf e.2 != "application/dicom" then false else checkLoop rest

/-- Embedding of `DICOMCrawler._check_all_dcm` (data.py lines 53-72): glob
the direct entries, return `False` for zero entries, else scan them. -/
def checkAllDcm (p : String) (t : FSTree) : Bool :=
  if (sortPairs (globStarPairs p t)).length = 0 then false
  else checkLoop (sortPairs (globStarPairs p t))

/-- The entry `_read_dcm` selects: `sorted(glob.glob(f"{path}/**"))[0]`
(data.py line 84), as an option to capture the empty case. -/
def readDcmSelected (p : String) (t : FSTree) : Option (String × FSTree) :=
  (sortPairs (globStarPairs p t)).head?

/-- The full path of the representative file `_read_dcm` reads. -/
def readDcmTargetPath (p : String) (t : FSTree) : Option String :=
  (readDcmSelected p t).map Prod.fst

/-- Embedding of `DICOMCrawler._read_dcm` (data.py lines 74-90) composed
with the `dcmread` collaborator: pick the first sorted glob entry and decode
it into the name/value element table.  An empty glob raises `IndexError`; a
directory raises `IsADirectoryError` inside `dcmread`; an undecodable file
raises the decode failure. -/
def readDcm (p : String) (t : FSTree) : Except CrawlError (List (String × String)) :=
  match readDcmSelected p t with
  | none => .error .indexErrorEmptyDir
  | some (q, .dir _) => .error (.isADirectoryError q)
  | some (q, .file _ none) => .error (.decodeFailed q)
  | some (_, .file _ (some elems)) => .ok elems

/-- Model of `dcm_data[dcm_data['name'] == nm].values[0][1]` minus the
indexing: the value of the first element whose name is `nm`, if any. -/
def lookupField (elems : List (String × String)) (nm : String) : Option String :=
  (elems.find? (fun e => e.1 == nm)).map (fun e => e.2)

/-- One output row of the summary table (data.py lines 122-127 and 129-131). -/
structure SeriesRecord where
  modality : String
  path : String
  dcmCount : Nat
  studyDate : Option String
  acqTime : Option String
  patientId : Option String
  patientSex : Option String
  patientAge : Option String
deriving DecidableEq

/-- Entry count `len(glob.glob(f"{file}/**"))` (data.py lines 123 and 127). -/
def dcmCountOf (p : String) (t : FSTree) : Nat := (globStarPairs p t).length

/-- The five sequential field lookups of data.py lines 116-120: each
`dcm_data[dcm_data['name'] == nm].values[0]` raises the `IndexError` of
indexing an empty selection when the name is absent, so the first missing
name (in source order Study Date, Acquisition Time, Patient ID, Patient's
Sex, Patient's Age) aborts extraction. -/
def extractFields (elems : List (String × String)) :
    Except CrawlError (String × String × String × String × String) :=
  match lookupField elems "Study Date" with
  | none => .error .indexErrorMissingField
  | some sdV =>
    match lookupField elems "Acquisition Time" with
    | none => .error .indexErrorMissingField
    | some atV =>
      match lookupField elems "Patient ID" with
      | none => .error .indexErrorMissingField
      | some idV =>
        match lookupField elems "Patient's Sex" with
        | none => .error .indexErrorMissingField
        | some sxV =>
          match lookupField elems "Patient's Age" with
          | none => .error .indexErrorMissingField
          | some agV => .ok (sdV, atV, idV, sxV, agV)

/-- Per-candidate body of `DICOMCrawler.crawl` (data.py lines 113-127),
parameterised by the reader so that extractor invocation is observable: if
`_check_all_dcm` holds, read the representative file, extract the five
fields and emit the populated row; otherwise emit the row with the five
metadata fields `None` without reading anything.  Reader and extraction
failures propagate. -/
def processDirWith
    (reader : String → FSTree → Except CrawlError (List (String × String)))
    (key : String) (fp : String) (t : FSTree) : Except CrawlError SeriesRecord :=
  if checkAllDcm fp t then
    (reader fp t).bind fun elems =>
      (extractFields elems).map fun v =>
        SeriesRecord.mk key fp (dcmCountOf fp t)
          (some v.1) (some v.2.1) (some v.2.2.1) (some v.2.2.2.1) (some v.2.2.2.2)
  else
    .ok (SeriesRecord.mk key fp (dcmCountOf fp t) none none none none none)

/-- The per-candidate body with the real reader `_read_dcm`. -/
def processDir : String → String → FSTree → Except CrawlError SeriesRecord :=
  processDirWith readDcm

/-- Modality template: the parsed JSON mapping, label to pattern list, in
declaration order. -/
abbrev Template := List (String × List String)

/-- Candidate enumeration for one label (data.py lines 109-112): directories
in the sorted recursive glob whose path contains one of the tags. -/
def keptDirs (tags : List String) (p : String) (t : FSTree) : List (String × FSTree) :=
  (sortPairs (globRecPairs p t)).filter
    (fun x => tags.any (fun tag => strContains x.1 tag) && x.2.isDir)

/-- All kept candidates of one input path in processing order: template
labels in declaration order, kept directories in sorted order within each
label (data.py lines 107-112). -/
def candidatePairs : Template → String → FSTree → List (String × String × FSTree)
  | [], _, _ => []
  | kv :: rest, p, t =>
    ((keptDirs kv.2 p t).map (fun d => (kv.1, d.1, d.2))) ++ candidatePairs rest p t

/-- Accumulation of `subject_data` over the kept candidates (data.py lines
113-127): one row appended per candidate, aborting on the first exception. -/
def processCandidatesWith
    (reader : String → FSTree → Except CrawlError (List (String × String))) :
    List (String × String × FSTree) → Except CrawlError (List SeriesRecord)
  | [] => .ok []
  | c :: rest =>
    match processDirWith reader c.1 c.2.1 c.2.2 with
    | .error e => .error e
    | .ok r =>
      match processCandidatesWith reader rest with
      | .error e => .error e
      | .ok rs => .ok (r :: rs)

/-- Whether an `Except` result is a success. -/
def exceptOk : Except CrawlError (List SeriesRecord) → Bool
  | .ok _ => true
  | .error _ => false

/-- Sort key of `sort_values(by='Acquisition Time', na_position='last')`:
present times compare as strings, an absent time goes after everything. -/
def acqLeB : Option String → Option String → Bool
  | _, none => true
  | none, some _ => false
  | some x, some y => strLe x y

/-- Row ordering used by the summary sort. -/
def recLe (a b : SeriesRecord) : Prop := acqLeB a.acqTime b.acqTime = true

instance : DecidableRel recLe :=
  fun a b => inferInstanceAs (Decidable (acqLeB a.acqTime b.acqTime = true))

/-- Model of `pd.DataFrame(...).sort_values(by='Acquisition Time',
na_position='last')` (data.py lines 129-132) as a deterministic sort by
acquisition time with absent values last.  pandas' default
`kind='quicksort'` guarantees the same key order but not the relative order
of tied rows; this model is one deterministic refinement of that contract
(it happens to be stable), which no theorem below relies on for tied rows. -/
def sortValues (l : List SeriesRecord) : List SeriesRecord :=
  List.insertionSort recLe l

/-- Fixed header row written by `to_csv` for the 8 columns of data.py
line 131. -/
def csvHeader : String :=
  "Modality,Path,DCM_Count,Study Date,Acquisition Time,Subject_ID,Subject_Sex,Subject_Age"

/-- CSV cell for an optional metadata value: `None` serialises as empty. -/
def optCell : Option String → String
  | none => ""
  | some s => s

/-- One serialised CSV row (quoting of special characters is not modelled;
no theorem depends on it). -/
def recordToCsv (r : SeriesRecord) : String :=
  r.modality ++ "," ++ r.path ++ "," ++ toString r.dcmCount ++ "," ++
    optCell r.studyDate ++ "," ++ optCell r.acqTime ++ "," ++
    optCell r.patientId ++ "," ++ optCell r.patientSex ++ "," ++ optCell r.patientAge

/-- Serialised content of `modal_data.csv`: header then one line per row
(`to_csv(..., index=False)`). -/
def toCsv (recs : List SeriesRecord) : List String :=
  csvHeader :: recs.map recordToCsv

/-- Name of the per-path output file. -/
def csvName : String := "modal_data.csv"

/-- Children after writing/overwriting `modal_data.csv` in a directory. -/
def writeChildren : List (String × FSTree) → List (String × FSTree)
  | [] => [(csvName, .file "text/csv" none)]
  | c :: rest =>
    if c.1 == csvName then (csvName, .file "text/csv" none) :: rest
    else c :: writeChildren rest

/-- Filesystem effect of `modal_data.to_csv(output_file)` on the input-path
directory: create or overwrite the CSV file (a non-DICOM file; its textual
content plays no further role in the crawl). -/
def writeCsv : FSTree → FSTree
  | .file m d => .file m d
  | .dir cs => .dir (writeChildren cs)

/-- Output location `os.path.join(path, 'modal_data.csv')` (data.py line 135). -/
def outPath (p : String) : String := p ++ "/" ++ csvName

/-- Confirmation line printed per completed path (data.py line 137). -/
def savedLine (p : String) : String := "Saved modal_data.csv for path: " ++ p

/-- Value a template JSON file parses to: the expected mapping, or some
other JSON value (list, string, number, ...) on which `.items()` fails. -/
inductive JsonVal where
  | obj (t : Template)
  | nonObj

/-- State of the template file on disk: missing, present but not valid JSON,
or valid JSON. -/
inductive TemplateFile where
  | absent
  | invalid
  | json (j : JsonVal)

/-- Embedding of `DICOMCrawler._read_json` (data.py lines 33-51): a missing
file raises `ValueError("File not found: ...")`, undecodable JSON raises
`ValueError("Invalid JSON in file: ...")`. -/
def readJson (jsonPath : String) (f : TemplateFile) : Except CrawlError JsonVal :=
  match f with
  | .absent => .error (.fileNotFound jsonPath)
  | .invalid => .error (.invalidJson jsonPath)
  | .json j => .ok j

/-- Result of the inner loops of `crawl` for one input path (data.py lines
106-127): iterate `data.items()` (an `AttributeError` if the parsed JSON is
not a mapping) and accumulate one row per kept candidate. -/
def processPathResult (j : JsonVal) (p : String) (t : FSTree) :
    Except CrawlError (List SeriesRecord) :=
  match j with
  | .nonObj => .error .attributeError
  | .obj tmpl => processCandidatesWith readDcm (candidatePairs tmpl p t)

/-- Observable state of one crawl invocation: the (possibly updated)
filesystem of each input path, the output files written so far as
(location, lines), the printed confirmation lines, and the uncaught
exception if one aborted the run. -/
structure RunState where
  fs : List (String × FSTree)
  outputs : List (String × List String)
  printed : List String
  err : Option CrawlError

/-- Embedding of the per-path loop of `DICOMCrawler.crawl` (data.py lines
105-137): process each input path in order, sort and serialise its table,
write `modal_data.csv` into the path and print the confirmation; an uncaught
exception aborts the loop, leaving the remaining paths unprocessed and their
filesystems untouched, while already-written outputs remain. -/
def crawlRun (j : JsonVal) : List (String × FSTree) → RunState
  | [] => ⟨[], [], [], none⟩
  | (p, t) :: rest =>
    match processPathResult j p t with
    | .error e => ⟨(p, t) :: rest, [], [], some e⟩
    | .ok recs =>
      let s := crawlRun j rest
      ⟨(p, writeCsv t) :: s.fs,
       (outPath p, toCsv (sortValues recs)) :: s.outputs,
       savedLine p :: s.printed,
       s.err⟩

/-- Embedding of `DICOMCrawler.crawl` (data.py lines 92-137): load the
template JSON, then run the per-path loop; a configuration error aborts
before any path is touched. -/
def crawl (jsonPath : String) (f : TemplateFile) (inputs : List (String × FSTree)) :
    RunState :=
  match readJson jsonPath f with
  | .error e => ⟨inputs, [], [], some e⟩
  | .ok j => crawlRun j inputs

/-- Spec-side enumeration for the extractor (spec section 4.3): the entries
under the directory in the sense of recursive glob semantics, i.e. all
proper descendants with no hidden path component, as full path strings (the
directory itself is not an entry under it). -/
def specRecursiveEntries (p : String) (t : FSTree) : List String :=
  (descend p t).map Prod.fst

/-- Spec-side representative selection (spec section 4.3): the
lexicographically first entry by full path among the recursive-glob entries
under the directory. -/
def specRecursiveFirstEntry (p : String) (t : FSTree) : Option String :=
  (sortStrings (specRecursiveEntries p t)).head?

/-- Decoded dataset with all five canonical fields present. -/
def elemsFull : List (String × String) :=
  [("Study Date", "20200101"), ("Acquisition Time", "101010"),
   ("Patient ID", "SUB1"), ("Patient's Sex", "M"), ("Patient's Age", "030Y")]

/-- Decoded dataset missing the Study Date element. -/
def elemsNoSD : List (String × String) :=
  [("Acquisition Time", "101010"), ("Patient ID", "S"),
   ("Patient's Sex", "F"), ("Patient's Age", "040Y")]

/-- Decoded dataset missing the Patient's Age element. -/
def elemsNoAge : List (String × String) :=
  [("Study Date", "20200101"), ("Acquisition Time", "101010"),
   ("Patient ID", "S"), ("Patient's Sex", "F")]

/-- Validated series whose one file decodes without a Study Date. -/
def treeNoSD : FSTree := .dir [("a.dcm", .file "application/dicom" (some elemsNoSD))]

/-- Validated series whose one file decodes without a Patient's Age. -/
def treeNoAge : FSTree := .dir [("a.dcm", .file "application/dicom" (some elemsNoAge))]

/-- Template with one label `CT` matching the substring `ct`. -/
def tmplCT : Template := [("CT", ["ct"])]

/-- Input path content for the CT example: one matching directory holding a
single non-DICOM file, so validation fails there. -/
def treeCT : FSTree := .dir [("ctA", .dir [("x.txt", .file "text/plain" none)])]

/-- Template with one label `MRI` matching the substring `ser`. -/
def tmplSer : Template := [("MRI", ["ser"])]

/-- Input path whose one matching directory is homogeneous DICOM with a
complete dataset: its processing succeeds. -/
def goodSeriesTree : FSTree := .dir [("a.dcm", .file "application/dicom" (some elemsFull))]

/-- Input path whose one matching directory passes validation but whose
dataset is missing four of the five fields: extraction raises. -/
def badSeriesTree : FSTree :=
  .dir [("b.dcm", .file "application/dicom" (some [("Study Date", "20200102")]))]

/-- Template with one label `MRI` matching the substring `study`. -/
def tmplStudy : Template := [("MRI", ["study"])]

/-- Single input path named `study` (so the path itself is a kept
candidate), homogeneous DICOM, no output file yet. -/
def inputsStudy : List (String × FSTree) := [("study", goodSeriesTree)]

/-- The same input path with `modal_data.csv` already present from an
earlier run, so the crawl's own write leaves the filesystem unchanged. -/
def inputsStudyWithCsv : List (String × FSTree) :=
  [("study", .dir [("a.dcm", .file "application/dicom" (some elemsFull)),
                   ("modal_data.csv", .file "text/csv" none)])]

/-- Validated directory with several DICOM files and a hidden entry, for the
representative-selection example. -/
def treeMixed : FSTree :=
  .dir [("b.dcm", .file "application/dicom" (some elemsFull)),
        ("a.dcm", .file "application/dicom" none),
        (".hidden", .file "text/plain" none)]

/-- Homogeneous DICOM directory with two files. -/
def treeTwoDcm : FSTree :=
  .dir [("a.dcm", .file "application/dicom" none), ("b.dcm", .file "application/dicom" none)]

/-- Template with one label `MRI` matching the substring `mri`. -/
def tmplMri : Template := [("MRI", ["mri"])]

/-- Input path content containing nothing that matches `mri`. -/
def treeNoMatch : FSTree := .dir [("x", .file "a" none)]

/-! ## Helper lemmas -/

theorem checkLoop_iff (l : List (String × FSTree)) :
    checkLoop l = true ↔ ∀ e ∈ l, mimeOf e.2 = "application/dicom" := by
  induction l with
  | nil => simp [checkLoop]
  | cons e rest ih =>
    by_cases h : mimeOf e.2 = "application/dicom"
    · simp [checkLoop, h, ih]
    · simp [checkLoop, h]

theorem checkAllDcm_iff (p : String) (t : FSTree) :
    checkAllDcm p t = true ↔
      (globStarPairs p t ≠ [] ∧
        ∀ e ∈ globStarPairs p t, mimeOf e.2 = "application/dicom") := by
  have hperm : List.Perm (sortPairs (globStarPairs p t)) (globStarPairs p t) :=
    List.perm_insertionSort pairPathLe (globStarPairs p t)
  unfold checkAllDcm
  by_cases h0 : (sortPairs (globStarPairs p t)).length = 0
  · rw [if_pos h0]
    have hnil : globStarPairs p t = [] := by
      have hl := hperm.length_eq
      rw [h0] at hl
      exact List.length_eq_zero.mp hl.symm
    simp [hnil]
  · rw [if_neg h0]
    rw [checkLoop_iff]
    constructor
    · intro hall
      refine ⟨?_, ?_⟩
      · intro hnil
        apply h0
        rw [hnil]
        rfl
      · intro e he
        exact hall e (hperm.mem_iff.mpr he)
    · rintro ⟨-, hall⟩ e he
      exact hall e (hperm.mem_iff.mp he)

theorem processCandidates_rel
    (reader : String → FSTree → Except CrawlError (List (String × String))) :
    ∀ (cs : List (String × String × FSTree)) (recs : List SeriesRecord),
      processCandidatesWith reader cs = .ok recs →
      List.Forall₂ (fun c r => processDirWith reader c.1 c.2.1 c.2.2 = .ok r) cs recs := by
  intro cs
  induction cs with
  | nil =>
    intro recs h
    simp only [processCandidatesWith] at h
    injection h with h
    subst h
    exact List.Forall₂.nil
  | cons c rest ih =>
    intro recs h
    simp only [processCandidatesWith] at h
    cases hd : processDirWith reader c.1 c.2.1 c.2.2 with
    | error e => rw [hd] at h; exact Except.noConfusion h
    | ok r =>
      rw [hd] at h
      cases hr : processCandidatesWith reader rest with
      | error e => rw [hr] at h; exact Except.noConfusion h
      | ok rs =>
        rw [hr] at h
        injection h with h
        subst h
        exact List.Forall₂.cons hd (ih rs hr)

/-! ## Claims -/

/-- C1: for every kept candidate directory on which the Series Validator
returns `false`, the Crawler emits exactly one SeriesRecord for that
candidate (the rows are in one-to-one order-preserving correspondence with
the kept candidates), that record has all five metadata fields absent while
its modality label and entry count are populated, and it is the same for
every reader, so the Metadata Extractor is never invoked for that
directory. -/
theorem crawl_invalid_series_null_row
    (reader : String → FSTree → Except CrawlError (List (String × String)))
    (tmpl : Template) (p : String) (t : FSTree) (recs : List SeriesRecord)
    (h : processCandidatesWith reader (candidatePairs tmpl p t) = .ok recs) :
    List.Forall₂
      (fun c r => checkAllDcm c.2.1 c.2.2 = false →
        r = SeriesRecord.mk c.1 c.2.1 (dcmCountOf c.2.1 c.2.2) none none none none none)
      (candidatePairs tmpl p t) recs := by
  refine List.Forall₂.imp ?_ (processCandidates_rel reader _ recs h)
  intro c r hcr hfalse
  unfold processDirWith at hcr
  rw [if_neg (by simp [hfalse])] at hcr
  injection hcr with hcr
  exact hcr.symm

/-- Witness for C1: the concrete CT example has one kept candidate, it fails
validation, and the emitted row is the null-fields row with count 1. -/
theorem crawl_invalid_series_null_row_witness :
    List.Forall₂
      (fun c r => checkAllDcm c.2.1 c.2.2 = false →
        r = SeriesRecord.mk c.1 c.2.1 (dcmCountOf c.2.1 c.2.2) none none none none none)
      (candidatePairs tmplCT "root" treeCT)
      [SeriesRecord.mk "CT" "root/ctA" 1 none none none none none] :=
  crawl_invalid_series_null_row readDcm tmplCT "root" treeCT
    [SeriesRecord.mk "CT" "root/ctA" 1 none none none none none] rfl

/-- C3: `_check_all_dcm` returns `true` exactly when the directory's globbed
entry list is non-empty and every entry's detected MIME type is
`application/dicom`; hence it is `false` for zero entries and `false` as
soon as one entry is not DICOM-typed. -/
theorem check_all_dcm_iff_nonempty_all_dicom (p : String) (t : FSTree) :
    checkAllDcm p t = true ↔
      (globStarPairs p t ≠ [] ∧
        ∀ e ∈ globStarPairs p t, mimeOf e.2 = "application/dicom") :=
  checkAllDcm_iff p t

/-- Witness for C3: a directory of two DICOM-typed files validates. -/
theorem check_all_dcm_iff_nonempty_all_dicom_witness :
    checkAllDcm "p" treeTwoDcm = true :=
  (check_all_dcm_iff_nonempty_all_dicom "p" treeTwoDcm).mpr
    ⟨fun hx => absurd (congrArg List.length hx) (by decide), by decide⟩

/-- C5 counterexample: the claim says a missing field yields a FieldNotFound
error identifying the missing field; the code instead raises the IndexError
of `.values[0]` on an empty selection, and that error is the same value
whichever of the five fields is missing — here a dataset missing Study Date
and a dataset missing Patient's Age fail with the identical error. -/
theorem missing_field_error_not_identifying :
    processDir "MRI" "s/" treeNoSD = .error .indexErrorMissingField ∧
    processDir "MRI" "s2/" treeNoAge = .error .indexErrorMissingField ∧
    lookupField elemsNoSD "Study Date" = none ∧
    lookupField elemsNoAge "Study Date" = some "20200101" ∧
    lookupField elemsNoAge "Patient's Age" = none :=
  ⟨rfl, rfl, rfl, rfl, rfl⟩

/-- C5 amended: when any of the five canonical tag names is absent from the
decoded element set of the representative file of a validated directory,
metadata extraction fails — with the IndexError of indexing an empty
selection, which is the same error for every missing field and therefore
does not identify which field was missing. -/
theorem missing_field_raises_index_error
    (key fp : String) (t : FSTree) (elems : List (String × String))
    (h1 : checkAllDcm fp t = true)
    (h2 : readDcm fp t = .ok elems)
    (h3 : lookupField elems "Study Date" = none ∨
          lookupField elems "Acquisition Time" = none ∨
          lookupField elems "Patient ID" = none ∨
          lookupField elems "Patient's Sex" = none ∨
          lookupField elems "Patient's Age" = none) :
    processDirWith readDcm key fp t = .error .indexErrorMissingField := by
  have hext : extractFields elems = .error .indexErrorMissingField := by
    unfold extractFields
    split
    · rfl
    · split
      · rfl
      · split
        · rfl
        · split
          · rfl
          · split
            · rfl
            · exfalso
              rcases h3 with h | h | h | h | h <;> simp_all
  unfold processDirWith
  rw [if_pos h1, h2]
  show (extractFields elems).map _ = _
  rw [hext]
  rfl

/-- Witness for C5 amended: the dataset missing Patient's Age triggers the
IndexError. -/
theorem missing_field_raises_index_error_witness :
    processDirWith readDcm "MRI" "s2/" treeNoAge = .error .indexErrorMissingField :=
  missing_field_raises_index_error "MRI" "s2/" treeNoAge elemsNoAge (by decide) rfl
    (Or.inr (Or.inr (Or.inr (Or.inr rfl))))

/-- C2: an extraction failure (missing field or decode failure) on an input
path propagates out of the crawl: the run's outputs are exactly those of the
input paths completed before the failing one (so nothing is written for the
failing path or the remaining ones, and previously written files remain),
the error surfaces as the run's uncaught exception, and the completed
prefix has one output file per path at its `modal_data.csv` location. -/
theorem crawl_extraction_failure_aborts (j : JsonVal) :
    ∀ (ps₁ : List (String × FSTree)) (p : String) (tr : FSTree)
      (ps₂ : List (String × FSTree)) (e : CrawlError),
      (∀ x ∈ ps₁, exceptOk (processPathResult j x.1 x.2) = true) →
      processPathResult j p tr = .error e →
      (e = .indexErrorMissingField ∨ ∃ s, e = .decodeFailed s) →
      (crawlRun j (ps₁ ++ (p, tr) :: ps₂)).outputs = (crawlRun j ps₁).outputs ∧
      (crawlRun j (ps₁ ++ (p, tr) :: ps₂)).err = some e ∧
      (crawlRun j ps₁).outputs.map Prod.fst = ps₁.map (fun x => outPath x.1) := by
  intro ps₁
  induction ps₁ with
  | nil =>
    intro p tr ps₂ e _ herr _
    refine ⟨?_, ?_, rfl⟩
    · simp only [List.nil_append, crawlRun, herr]
    · simp only [List.nil_append, crawlRun, herr]
  | cons x rest ih =>
    intro p tr ps₂ e hok herr hext
    obtain ⟨x1, x2⟩ := x
    have hx := hok (x1, x2) (List.mem_cons_self _ _)
    cases hq : processPathResult j x1 x2 with
    | error e2 =>
      rw [hq] at hx
      exact absurd hx (by simp [exceptOk])
    | ok recs =>
      have hrest : ∀ y ∈ rest, exceptOk (processPathResult j y.1 y.2) = true :=
        fun y hy => hok y (List.mem_cons_of_mem _ hy)
      obtain ⟨h1, h2, h3⟩ := ih p tr ps₂ e hrest herr hext
      refine ⟨?_, ?_, ?_⟩
      · simp only [List.cons_append, crawlRun, hq, List.append_eq, h1]
      · simp only [List.cons_append, crawlRun, hq, List.append_eq, h2]
      · simp only [crawlRun, hq, List.map, h3]

/-- Witness for C2: one succeeding path, then a path whose validated series
is missing fields, then a further path; the outputs are the first path's
only and the IndexError surfaces. -/
theorem crawl_extraction_failure_aborts_witness :
    (crawlRun (.obj tmplSer)
        ([("okser", goodSeriesTree)] ++ ("badser", badSeriesTree) ::
          [("cser", FSTree.dir [])])).outputs =
      (crawlRun (.obj tmplSer) [("okser", goodSeriesTree)]).outputs ∧
    (crawlRun (.obj tmplSer)
        ([("okser", goodSeriesTree)] ++ ("badser", badSeriesTree) ::
          [("cser", FSTree.dir [])])).err = some .indexErrorMissingField ∧
    (crawlRun (.obj tmplSer) [("okser", goodSeriesTree)]).outputs.map Prod.fst =
      [("okser", goodSeriesTree)].map (fun x => outPath x.1) :=
  crawl_extraction_failure_aborts (.obj tmplSer) [("okser", goodSeriesTree)]
    "badser" badSeriesTree [("cser", FSTree.dir [])] .indexErrorMissingField
    (by decide) rfl (Or.inl rfl)

theorem orderedInsert_map_fst (a : String × FSTree) (l : List (String × FSTree)) :
    (List.orderedInsert pairPathLe a l).map Prod.fst =
      List.orderedInsert pathLeP a.1 (l.map Prod.fst) := by
  induction l with
  | nil => rfl
  | cons b m ih =>
    have hiff : pairPathLe a b ↔ pathLeP a.1 b.1 := Iff.rfl
    simp only [List.orderedInsert, List.map]
    by_cases hab : pairPathLe a b
    · rw [if_pos hab, if_pos (hiff.mp hab)]
      simp only [List.map]
    · rw [if_neg hab, if_neg (fun hc => hab (hiff.mpr hc))]
      simp only [List.map, ih]

theorem sortPairs_map_fst (l : List (String × FSTree)) :
    (sortPairs l).map Prod.fst = sortStrings (l.map Prod.fst) := by
  induction l with
  | nil => rfl
  | cons a m ih =>
    simp only [sortPairs, sortStrings, List.insertionSort, List.map] at *
    rw [orderedInsert_map_fst, ih]

theorem descendList_all_files (p : String) (cs : List (String × FSTree))
    (h : ∀ c ∈ cs, hiddenName c.1 = false → ∃ m d, c.2 = FSTree.file m d) :
    descendList p cs =
      (cs.filter (fun c => !hiddenName c.1)).map (fun c => (p ++ "/" ++ c.1, c.2)) := by
  induction cs with
  | nil => rfl
  | cons c rest ih =>
    have hrest := fun y hy => h y (List.mem_cons_of_mem _ hy)
    simp only [descendList]
    by_cases hh : hiddenName c.1
    · rw [if_pos hh]
      rw [List.filter_cons_of_neg (by simp [hh])]
      simp only [List.nil_append]
      exact ih hrest
    · rw [if_neg hh]
      have hb : hiddenName c.1 = false := by simpa using hh
      obtain ⟨m, d, hc⟩ := h c (List.mem_cons_self _ _) hb
      have hdesc : descend (p ++ "/" ++ c.1) c.2 = [] := by rw [hc]; rfl
      rw [List.filter_cons_of_pos (by simp [hb]), hdesc]
      simp only [List.cons_append, List.nil_append, List.map]
      rw [ih hrest]

theorem descend_eq_globStar_of_files (p : String) (cs : List (String × FSTree))
    (h : ∀ c ∈ cs, hiddenName c.1 = false → ∃ m d, c.2 = FSTree.file m d) :
    descend p (.dir cs) = globStarPairs p (.dir cs) := by
  rw [show descend p (.dir cs) = descendList p cs from rfl, descendList_all_files p cs h]
  rfl

/-- C6: for every validated series directory, the file `_read_dcm` reads is
exactly one entry, and its full path is the lexicographically first entry by
full path among the entries under the directory enumerated with recursive
glob semantics (spec-side definition `specRecursiveFirstEntry`); under
validation every non-hidden entry is a DICOM-typed plain file, so the
recursive enumeration coincides with the direct one. -/
theorem representative_is_first_sorted_entry (p : String) (t : FSTree)
    (h : checkAllDcm p t = true) :
    ∃ q, readDcmTargetPath p t = some q ∧ specRecursiveFirstEntry p t = some q := by
  obtain ⟨hne, hall⟩ := checkAllDcm_iff p t |>.mp h
  cases t with
  | file m d => exact absurd rfl hne
  | dir cs =>
    have hfiles : ∀ c ∈ cs, hiddenName c.1 = false → ∃ m d, c.2 = FSTree.file m d := by
      intro c hc hb
      have hmem : (p ++ "/" ++ c.1, c.2) ∈ globStarPairs p (.dir cs) := by
        simp only [globStarPairs, FSTree.children]
        exact List.mem_map_of_mem _ (List.mem_filter.mpr ⟨hc, by simp [hb]⟩)
      have hm := hall _ hmem
      cases hcc : c.2 with
      | file m d => exact ⟨m, d, rfl⟩
      | dir ds =>
        rw [hcc, show mimeOf (FSTree.dir ds) = "inode/directory" from rfl] at hm
        exact absurd hm (by decide)
    have hd : descend p (.dir cs) = globStarPairs p (.dir cs) :=
      descend_eq_globStar_of_files p cs hfiles
    have hkey : readDcmTargetPath p (.dir cs) = specRecursiveFirstEntry p (.dir cs) := by
      unfold readDcmTargetPath readDcmSelected specRecursiveFirstEntry specRecursiveEntries
      rw [← List.head?_map, sortPairs_map_fst, hd]
    cases hs : sortPairs (globStarPairs p (.dir cs)) with
    | nil =>
      exfalso
      have hperm : List.Perm (sortPairs (globStarPairs p (.dir cs)))
          (globStarPairs p (.dir cs)) :=
        List.perm_insertionSort pairPathLe (globStarPairs p (.dir cs))
      rw [hs] at hperm
      exact hne (hperm.nil_eq).symm
    | cons a l =>
      refine ⟨a.1, ?_, ?_⟩
      · unfold readDcmTargetPath readDcmSelected
        rw [hs]
        rfl
      · rw [← hkey]
        unfold readDcmTargetPath readDcmSelected
        rw [hs]
        rfl

/-- Witness for C6: in the mixed directory the target and the spec-side
first recursive entry agree. -/
theorem representative_is_first_sorted_entry_witness :
    ∃ q, readDcmTargetPath "m" treeMixed = some q ∧
      specRecursiveFirstEntry "m" treeMixed = some q :=
  representative_is_first_sorted_entry "m" treeMixed (by decide)

/-- C7 counterexample: running the crawl twice in succession on the same
input path set with the filesystem otherwise unchanged does not reproduce
the outputs: the first run writes `modal_data.csv` into the input path,
which here is itself a kept candidate, so the second run sees one more
entry, the homogeneity check now fails, and the table flips from a
populated row with count 1 to a null row with count 2. -/
theorem crawl_second_run_differs :
    (crawlRun (.obj tmplStudy) (crawlRun (.obj tmplStudy) inputsStudy).fs).outputs ≠
      (crawlRun (.obj tmplStudy) inputsStudy).outputs := by
  decide

theorem crawlRun_fs_fixed (j : JsonVal) :
    ∀ (inputs : List (String × FSTree)),
      inputs.map (fun x => (x.1, writeCsv x.2)) = inputs →
      (crawlRun j inputs).fs = inputs := by
  intro inputs
  induction inputs with
  | nil => intro _; rfl
  | cons x rest ih =>
    intro h
    obtain ⟨x1, x2⟩ := x
    simp only [List.map_cons] at h
    injection h with h1 h2
    injection h1 with _ hw
    cases hq : processPathResult j x1 x2 with
    | error e => simp only [crawlRun, hq]
    | ok recs => simp only [crawlRun, hq, hw, ih h2]

/-- C7 amended: the crawl run is a deterministic function of the filesystem,
so two runs in succession produce byte-identical output tables provided the
first run's own write changes nothing — i.e. when each input path already
contains `modal_data.csv` (e.g. any runs after the first); starting without
it, the write can change a kept candidate's entry count or validation, as
the counterexample shows. -/
theorem crawl_idempotent_when_output_preexists (j : JsonVal)
    (inputs : List (String × FSTree))
    (h : inputs.map (fun x => (x.1, writeCsv x.2)) = inputs) :
    (crawlRun j (crawlRun j inputs).fs).outputs = (crawlRun j inputs).outputs := by
  rw [crawlRun_fs_fixed j inputs h]

/-- Witness for C7 amended: with `modal_data.csv` already present the second
run reproduces the first run's outputs. -/
theorem crawl_idempotent_when_output_preexists_witness :
    (crawlRun (.obj tmplStudy) (crawlRun (.obj tmplStudy) inputsStudyWithCsv).fs).outputs =
      (crawlRun (.obj tmplStudy) inputsStudyWithCsv).outputs :=
  crawl_idempotent_when_output_preexists (.obj tmplStudy) inputsStudyWithCsv rfl

/-- C8 amended: a missing template file aborts the run with the
file-not-found `ValueError` (the spec's ConfigNotFound) and undecodable
JSON aborts it with the invalid-JSON `ValueError` (ConfigMalformed), both
before any input path is processed; content that parses as JSON but is not
a mapping is not caught at load time and instead raises an AttributeError
when the template is iterated for the first input path — in every case no
output file is written for any input path. -/
theorem template_errors_abort_run (jsonPath : String)
    (inputs : List (String × FSTree)) (p : String) (tr : FSTree) :
    crawl jsonPath .absent inputs =
      ⟨inputs, [], [], some (.fileNotFound jsonPath)⟩ ∧
    crawl jsonPath .invalid inputs =
      ⟨inputs, [], [], some (.invalidJson jsonPath)⟩ ∧
    crawl jsonPath (.json .nonObj) ((p, tr) :: inputs) =
      ⟨(p, tr) :: inputs, [], [], some .attributeError⟩ :=
  ⟨rfl, rfl, rfl⟩

/-- C8 counterexample: template content that is valid JSON but not the
expected mapping does not fail with the ConfigMalformed error (the
invalid-JSON `ValueError`): the run aborts with an AttributeError instead —
though still before any output file is written. -/
theorem nonmapping_template_not_config_error :
    (crawl "utils/modal-templates.json" (.json .nonObj) [("data", FSTree.dir [])]).err =
      some .attributeError ∧
    some CrawlError.attributeError ≠
      some (CrawlError.invalidJson "utils/modal-templates.json") ∧
    (crawl "utils/modal-templates.json" (.json .nonObj) [("data", FSTree.dir [])]).outputs =
      [] :=
  ⟨rfl, by decide, rfl⟩

/-- C9: dot-named entries are excluded from every enumeration the pipeline
performs — a hidden direct child does not change the entry count, a
directory whose entries are all hidden fails the homogeneity check exactly
like an empty one, and the representative file `_read_dcm` selects is
always a non-hidden direct child. -/
theorem hidden_entries_excluded :
    (∀ (fp nm : String) (t0 : FSTree) (cs : List (String × FSTree)),
        hiddenName nm = true →
        dcmCountOf fp (.dir ((nm, t0) :: cs)) = dcmCountOf fp (.dir cs)) ∧
    (∀ (fp : String) (cs : List (String × FSTree)),
        (∀ c ∈ cs, hiddenName c.1 = true) → checkAllDcm fp (.dir cs) = false) ∧
    (∀ (fp : String) (t : FSTree) (q : String) (nd : FSTree),
        readDcmSelected fp t = some (q, nd) →
        ∃ nm, (nm, nd) ∈ t.children ∧ hiddenName nm = false ∧ q = fp ++ "/" ++ nm) := by
  refine ⟨?_, ?_, ?_⟩
  · intro fp nm t0 cs h
    simp [dcmCountOf, globStarPairs, FSTree.children, h]
  · intro fp cs h
    have hnil : globStarPairs fp (.dir cs) = [] := by
      simp only [globStarPairs, FSTree.children]
      rw [List.filter_eq_nil_iff.mpr (fun c hc => by simp [h c hc])]
      rfl
    unfold checkAllDcm
    rw [hnil]
    rfl
  · intro fp t q nd h
    have hperm : List.Perm (sortPairs (globStarPairs fp t)) (globStarPairs fp t) :=
      List.perm_insertionSort pairPathLe (globStarPairs fp t)
    have hmem : (q, nd) ∈ sortPairs (globStarPairs fp t) := by
      unfold readDcmSelected at h
      cases hs : sortPairs (globStarPairs fp t) with
      | nil => rw [hs] at h; exact Option.noConfusion h
      | cons a l =>
        rw [hs] at h
        injection h with h
        rw [h]
        exact List.mem_cons_self _ _
    have hmem2 : (q, nd) ∈ globStarPairs fp t := hperm.mem_iff.mp hmem
    simp only [globStarPairs, List.mem_map] at hmem2
    obtain ⟨c, hcf, hceq⟩ := hmem2
    obtain ⟨hcm, hch⟩ := List.mem_filter.mp hcf
    injection hceq with hq hnd
    refine ⟨c.1, ?_, ?_, hq.symm⟩
    · rw [← hnd]
      simpa using hcm
    · simpa using hch

/-- Witness for C9: a hidden sibling leaves the count unchanged, an
all-hidden directory fails validation, and the selected representative in a
directory with a hidden entry is the non-hidden child. -/
theorem hidden_entries_excluded_witness :
    dcmCountOf "p" (.dir [(".h", FSTree.file "text/plain" none),
        ("b", FSTree.file "application/dicom" none)]) =
      dcmCountOf "p" (.dir [("b", FSTree.file "application/dicom" none)]) ∧
    checkAllDcm "p" (.dir [(".x", FSTree.file "application/dicom" (some []))]) = false ∧
    (∃ nm, (nm, FSTree.file "application/dicom" none) ∈
        (FSTree.dir [(".h", FSTree.file "text/plain" none),
          ("b", FSTree.file "application/dicom" none)]).children ∧
      hiddenName nm = false ∧ "p/b" = "p" ++ "/" ++ nm) :=
  ⟨hidden_entries_excluded.1 "p" ".h" (FSTree.file "text/plain" none)
      [("b", FSTree.file "application/dicom" none)] (by decide),
   hidden_entries_excluded.2.1 "p" [(".x", FSTree.file "application/dicom" (some []))]
      (by decide),
   hidden_entries_excluded.2.2 "p"
      (FSTree.dir [(".h", FSTree.file "text/plain" none),
        ("b", FSTree.file "application/dicom" none)])
      "p/b" (FSTree.file "application/dicom" none) rfl⟩

/-- C10: an input path under which no directory matches any label still gets
its output file, containing exactly the fixed 8-column header row and no
data rows, and the per-path confirmation line is still printed. -/
theorem no_match_writes_header_only (tmpl : Template) (p : String) (t : FSTree)
    (h : (candidatePairs tmpl p t).length = 0) :
    crawlRun (.obj tmpl) [(p, t)] =
      ⟨[(p, writeCsv t)], [(outPath p, [csvHeader])], [savedLine p], none⟩ := by
  have h0 : candidatePairs tmpl p t = [] := List.length_eq_zero.mp h
  simp only [crawlRun, processPathResult, h0, processCandidatesWith]
  rfl

/-- Witness for C10: the `mri` template matches nothing under `data`, yet
the header-only file is written and the confirmation line printed. -/
theorem no_match_writes_header_only_witness :
    crawlRun (.obj tmplMri) [("data", treeNoMatch)] =
      ⟨[("data", writeCsv treeNoMatch)], [(outPath "data", [csvHeader])],
       [savedLine "data"], none⟩ :=
  no_match_writes_header_only tmplMri "data" treeNoMatch (by decide)
